import Mathlib

/-!
Verification of the Facade design-pattern program (src/Facade/Facade.cpp).

The program has two stateless subsystem classes returning fixed strings,
a Facade class holding one pointer to each subsystem (created on demand
when the constructor argument is null), a destructor deleting both
pointers, a composite Operation concatenating the subsystem outputs, a
ClientCode function printing the result, and a main driver exercising
both constructor configurations.

Embedding: machine pointers become natural-number addresses; the heap of
subsystem instances is a list of live addresses together with a counter
supplying fresh addresses.  Dereferencing a null or dead pointer, and
deleting a dead pointer, are undefined behaviour in C++ and are modelled
as `none`.  Subsystem instances carry no data (the C++ classes have no
data members), so a successful dereference yields the unique value of a
fieldless structure.
-/

abbrev Addr := Nat

/-- The heap of allocated instances: the list of live addresses and the
next fresh address. -/
structure Heap where
  live : List Addr
  next : Addr
  deriving Repr, DecidableEq

/-- Allocation, the new expression: allocate a fresh instance, returning its address. -/
def Heap.alloc (h : Heap) : Addr × Heap :=
  (h.next, ⟨h.next :: h.live, h.next + 1⟩)

/-- Deletion of a non-null pointer: undefined behaviour (`none`) unless
the address is live; otherwise the address is removed from the heap. -/
def Heap.free (h : Heap) (a : Addr) : Option Heap :=
  if a ∈ h.live then some ⟨h.live.erase a, h.next⟩ else none

/-- A well-formed heap: every live address was previously allocated, and
no address is live twice. -/
def Heap.wf (h : Heap) : Prop :=
  (∀ a ∈ h.live, a < h.next) ∧ h.live.Nodup

instance (h : Heap) : Decidable h.wf := by
  unfold Heap.wf; infer_instance

/-- The class Subsystem1 has no data members. -/
structure Subsystem1 where
  deriving Repr, DecidableEq

/-- The member function Subsystem1::Operation1 returns a fixed string. -/
def Subsystem1.Operation1 (_s : Subsystem1) : String :=
  "Subsystem1: Ready!\n"

/-- The member function Subsystem1::OperationN returns a fixed string. -/
def Subsystem1.OperationN (_s : Subsystem1) : String :=
  "Subsystem1: Go!\n"

/-- The class Subsystem2 has no data members. -/
structure Subsystem2 where
  deriving Repr, DecidableEq

/-- The member function Subsystem2::Operation1 returns a fixed string. -/
def Subsystem2.Operation1 (_s : Subsystem2) : String :=
  "Subsystem2: Get ready!\n"

/-- The member function Subsystem2::OperationZ returns a fixed string. -/
def Subsystem2.OperationZ (_s : Subsystem2) : String :=
  "Subsystem2: Fire!\n"

/-- Dereference a `Subsystem1*`: null or dead pointers are undefined
behaviour; a live address yields the (unique, fieldless) instance value. -/
def deref1 (p : Option Addr) (h : Heap) : Option Subsystem1 :=
  match p with
  | none => none
  | some a => if a ∈ h.live then some ⟨⟩ else none

/-- Dereference a `Subsystem2*`. -/
def deref2 (p : Option Addr) (h : Heap) : Option Subsystem2 :=
  match p with
  | none => none
  | some a => if a ∈ h.live then some ⟨⟩ else none

/-- The class Facade holds the two pointer fields subsystem1_ and subsystem2_. -/
structure Facade where
  subsystem1_ : Option Addr
  subsystem2_ : Option Addr
  deriving Repr, DecidableEq

/-- The constructor of Facade, with both pointer parameters defaulting to
null: each field is set to the argument when it is non-null, and to a freshly
allocated instance otherwise. -/
def Facade.construct (subsystem1 subsystem2 : Option Addr) (h : Heap) :
    Facade × Heap :=
  let p1 : Addr × Heap :=
    match subsystem1 with
    | some a => (a, h)
    | none => h.alloc
  let p2 : Addr × Heap :=
    match subsystem2 with
    | some a => (a, p1.2)
    | none => p1.2.alloc
  (⟨some p1.1, some p2.1⟩, p2.2)

/-- A single `delete` statement on a `Subsystem` pointer field:
deleting a null pointer is a no-op; deleting a dead pointer is undefined
behaviour. -/
def deleteP (p : Option Addr) (h : Heap) : Option Heap :=
  match p with
  | none => some h
  | some a => h.free a

/-- The destructor of Facade deletes subsystem1_ and then subsystem2_. -/
def Facade.destruct (f : Facade) (h : Heap) : Option Heap := do
  let h1 ← deleteP f.subsystem1_ h
  deleteP f.subsystem2_ h1

/-- The method Facade::Operation builds the result string by the four
subsystem calls in source order, interleaved with the two header lines.
The method assigns no field and allocates nothing, so the facade value
and the heap are returned unchanged. -/
def Facade.operation (f : Facade) (h : Heap) :
    Option (String × Facade × Heap) := do
  let result := "Facade initializes subsystems:\n"
  let s1 ← deref1 f.subsystem1_ h
  let result := result ++ s1.Operation1
  let s2 ← deref2 f.subsystem2_ h
  let result := result ++ s2.Operation1
  let result := result ++ "Facade orders subsystems to perform the action:\n"
  let s1b ← deref1 f.subsystem1_ h
  let result := result ++ s1b.OperationN
  let s2b ← deref2 f.subsystem2_ h
  let result := result ++ s2b.OperationZ
  some (result, f, h)

/-- The function ClientCode calls Operation on the given facade and emits
the result; the emitted text is the first component. -/
def ClientCode (facade : Facade) (h : Heap) :
    Option (String × Facade × Heap) :=
  facade.operation h

/-- The driver main: allocates `subsystem1` and `subsystem2`, constructs a
facade from them, runs `ClientCode`, prints a newline, constructs a
second facade with null arguments, runs `ClientCode` on it, deletes the
first facade (running its destructor), and returns `0`.  The result is
the text written to standard output together with the exit status. -/
def mainProg : Option (String × Int) := do
  let h0 : Heap := ⟨[], 0⟩
  let p1 := h0.alloc
  let subsystem1 := p1.1
  let p2 := p1.2.alloc
  let subsystem2 := p2.1
  let c1 := Facade.construct (some subsystem1) (some subsystem2) p2.2
  let facade := c1.1
  let (out1, facade, h3) ← ClientCode facade c1.2
  let c2 := Facade.construct none none h3
  let facade2 := c2.1
  let (out2, _facade2, h4) ← ClientCode facade2 c2.2
  let _h5 ← facade.destruct h4
  some (out1 ++ "\n" ++ out2, 0)

/-- The exact output of one composite operation, as the specification
writes it. -/
def expectedOutput : String :=
  "Facade initializes subsystems:\nSubsystem1: Ready!\nSubsystem2: Get ready!\nFacade orders subsystems to perform the action:\nSubsystem1: Go!\nSubsystem2: Fire!\n"

/-! ## Helper lemmas -/

/-- Characterisation of Facade::Operation: it succeeds exactly when both
stored pointers dereference, and then yields the fixed output string, the
unchanged facade and the unchanged heap. -/
theorem operation_eq (f : Facade) (h : Heap) :
    f.operation h =
      match deref1 f.subsystem1_ h, deref2 f.subsystem2_ h with
      | some _, some _ => some (expectedOutput, f, h)
      | _, _ => none := by
  unfold Facade.operation
  cases deref1 f.subsystem1_ h <;> cases deref2 f.subsystem2_ h <;> rfl

/-- A successful Operation call returns the fixed output string and leaves
the facade and the heap unchanged. -/
theorem operation_frame (f : Facade) (h : Heap) (r : String) (f' : Facade)
    (h' : Heap) (hc : f.operation h = some (r, f', h')) :
    r = expectedOutput ∧ f' = f ∧ h' = h := by
  rw [operation_eq] at hc
  rcases hd1 : deref1 f.subsystem1_ h with _ | s1 <;> rw [hd1] at hc <;>
    rcases hd2 : deref2 f.subsystem2_ h with _ | s2 <;> rw [hd2] at hc <;>
    simp_all

/-! ## Claims -/

/-- Claim C1: for every facade constructed from two explicit (live)
subsystem instances, Operation returns exactly the concatenation of the
first header line, Subsystem1 Operation1, Subsystem2 Operation1, the
second header line, Subsystem1 OperationN and Subsystem2 OperationZ,
byte for byte the literal string below. -/
theorem C1_operation_output (s1 s2 : Addr) (h : Heap)
    (l1 : s1 ∈ h.live) (l2 : s2 ∈ h.live) :
    ((Facade.construct (some s1) (some s2) h).1).operation
        (Facade.construct (some s1) (some s2) h).2 =
      some ("Facade initializes subsystems:\nSubsystem1: Ready!\nSubsystem2: Get ready!\nFacade orders subsystems to perform the action:\nSubsystem1: Go!\nSubsystem2: Fire!\n",
        (Facade.construct (some s1) (some s2) h).1,
        (Facade.construct (some s1) (some s2) h).2) := by
  have hc : Facade.construct (some s1) (some s2) h = (⟨some s1, some s2⟩, h) := rfl
  rw [hc, operation_eq]
  simp [deref1, deref2, l1, l2, expectedOutput]

/-- Witness for C1 at a concrete heap with two live instances. -/
theorem C1_operation_output_witness :
    ((Facade.construct (some 0) (some 1) ⟨[0, 1], 2⟩).1).operation
        (Facade.construct (some 0) (some 1) ⟨[0, 1], 2⟩).2 =
      some ("Facade initializes subsystems:\nSubsystem1: Ready!\nSubsystem2: Get ready!\nFacade orders subsystems to perform the action:\nSubsystem1: Go!\nSubsystem2: Fire!\n",
        (Facade.construct (some 0) (some 1) ⟨[0, 1], 2⟩).1,
        (Facade.construct (some 0) (some 1) ⟨[0, 1], 2⟩).2) :=
  C1_operation_output 0 1 ⟨[0, 1], 2⟩ (by decide) (by decide)

/-- Counterexample to claim C2: construct a facade from the two borrowed
live instances 0 and 1 of the heap with live list [0, 1]; destroying the
facade succeeds and leaves a heap in which neither instance is live, so
the borrowed instances do not remain valid after teardown. -/
theorem C2_counterexample :
    ((Facade.construct (some 0) (some 1) ⟨[0, 1], 2⟩).1).destruct
        (Facade.construct (some 0) (some 1) ⟨[0, 1], 2⟩).2 =
      some ⟨[], 2⟩ ∧
    ¬ ((0 : Addr) ∈ (Heap.mk [] 2).live ∨ (1 : Addr) ∈ (Heap.mk [] 2).live) := by
  decide

/-- Claim C2 as amended: destroying a facade constructed from two
externally supplied distinct live instances releases both of them (the
destructor deletes unconditionally); afterwards neither instance is
live, and each was released exactly once (the teardown itself succeeds,
so no delete hit an already-dead address). -/
theorem C2_destruct_releases_borrowed (s1 s2 : Addr) (h : Heap)
    (hw : h.wf) (l1 : s1 ∈ h.live) (l2 : s2 ∈ h.live) (hne : s1 ≠ s2) :
    ∃ h2, ((Facade.construct (some s1) (some s2) h).1).destruct
        (Facade.construct (some s1) (some s2) h).2 = some h2 ∧
      s1 ∉ h2.live ∧ s2 ∉ h2.live := by
  obtain ⟨-, hnd⟩ := hw
  have hc : Facade.construct (some s1) (some s2) h = (⟨some s1, some s2⟩, h) := rfl
  rw [hc]
  have l2' : s2 ∈ h.live.erase s1 := List.mem_erase_of_ne (Ne.symm hne) |>.mpr l2
  refine ⟨⟨(h.live.erase s1).erase s2, h.next⟩, ?_, ?_, ?_⟩
  · simp [Facade.destruct, deleteP, Heap.free, l1, l2']
  · intro hmem
    have hs1 : s1 ∈ h.live.erase s1 := List.mem_of_mem_erase hmem
    exact (List.Nodup.not_mem_erase hnd) hs1
  · exact fun hmem => (List.Nodup.not_mem_erase (hnd.erase s1)) hmem

/-- Witness for the amended claim C2 at a concrete heap. -/
theorem C2_destruct_releases_borrowed_witness :
    ∃ h2, ((Facade.construct (some 0) (some 1) ⟨[0, 1], 2⟩).1).destruct
        (Facade.construct (some 0) (some 1) ⟨[0, 1], 2⟩).2 = some h2 ∧
      (0 : Addr) ∉ h2.live ∧ (1 : Addr) ∉ h2.live :=
  C2_destruct_releases_borrowed 0 1 ⟨[0, 1], 2⟩ (by decide) (by decide)
    (by decide) (by decide)

/-- Claim C3: a facade constructed with no explicit subsystem instances
produces exactly the same Operation output string as one constructed
from two explicit live instances: the output is independent of whether
the subsystems are borrowed or facade-owned. -/
theorem C3_default_same_output (s1 s2 : Addr) (h hD : Heap)
    (l1 : s1 ∈ h.live) (l2 : s2 ∈ h.live) :
    Option.map (fun r => r.1)
        (((Facade.construct none none hD).1).operation
          (Facade.construct none none hD).2) =
      Option.map (fun r => r.1)
        (((Facade.construct (some s1) (some s2) h).1).operation
          (Facade.construct (some s1) (some s2) h).2) := by
  have hcD : Facade.construct none none hD =
      (⟨some hD.next, some (hD.next + 1)⟩,
        ⟨(hD.next + 1) :: hD.next :: hD.live, hD.next + 2⟩) := rfl
  have hc : Facade.construct (some s1) (some s2) h = (⟨some s1, some s2⟩, h) := rfl
  rw [hcD, hc, operation_eq, operation_eq]
  simp [deref1, deref2, l1, l2]

/-- Witness for C3 at concrete heaps. -/
theorem C3_default_same_output_witness :
    Option.map (fun r => r.1)
        (((Facade.construct none none ⟨[], 0⟩).1).operation
          (Facade.construct none none ⟨[], 0⟩).2) =
      Option.map (fun r => r.1)
        (((Facade.construct (some 0) (some 1) ⟨[0, 1], 2⟩).1).operation
          (Facade.construct (some 0) (some 1) ⟨[0, 1], 2⟩).2) :=
  C3_default_same_output 0 1 ⟨[0, 1], 2⟩ ⟨[], 0⟩ (by decide) (by decide)

/-- Claim C4: for each constructor parameter independently, a non-null
argument is stored exactly as given, and a null argument leads to a
freshly created default instance (an address not live before
construction and live after it) being stored. -/
theorem C4_constructor_stores (o1 o2 : Option Addr) (h : Heap) (hw : h.wf) :
    (∀ a, o1 = some a → ((Facade.construct o1 o2 h).1).subsystem1_ = some a) ∧
    (o1 = none → ∃ a, ((Facade.construct o1 o2 h).1).subsystem1_ = some a ∧
        a ∉ h.live ∧ a ∈ (Facade.construct o1 o2 h).2.live) ∧
    (∀ a, o2 = some a → ((Facade.construct o1 o2 h).1).subsystem2_ = some a) ∧
    (o2 = none → ∃ a, ((Facade.construct o1 o2 h).1).subsystem2_ = some a ∧
        a ∉ h.live ∧ a ∈ (Facade.construct o1 o2 h).2.live) := by
  obtain ⟨hlt, -⟩ := hw
  have hn : h.next ∉ h.live := fun hm => absurd (hlt _ hm) (lt_irrefl _)
  have hn1 : h.next + 1 ∉ h.live :=
    fun hm => absurd (Nat.lt_of_succ_lt (hlt _ hm)) (lt_irrefl _)
  rcases o1 with _ | a
  · rcases o2 with _ | b
    · exact ⟨by simp, fun _ => ⟨h.next, rfl, hn, by simp [Facade.construct, Heap.alloc]⟩,
        by simp, fun _ => ⟨h.next + 1, rfl, hn1, by simp [Facade.construct, Heap.alloc]⟩⟩
    · exact ⟨by simp, fun _ => ⟨h.next, rfl, hn, by simp [Facade.construct, Heap.alloc]⟩,
        fun x hx => by cases hx; rfl, by simp⟩
  · rcases o2 with _ | b
    · exact ⟨fun x hx => by cases hx; rfl, by simp,
        by simp, fun _ => ⟨h.next, rfl, hn, by simp [Facade.construct, Heap.alloc]⟩⟩
    · exact ⟨fun x hx => by cases hx; rfl, by simp,
        fun x hx => by cases hx; rfl, by simp⟩

/-- Witness for C4: a mixed configuration, first parameter supplied and
second null, on a concrete well-formed heap. -/
theorem C4_constructor_stores_witness :
    (∀ a, (some 0 : Option Addr) = some a →
      ((Facade.construct (some 0) none ⟨[0], 1⟩).1).subsystem1_ = some a) ∧
    ((some 0 : Option Addr) = none →
      ∃ a, ((Facade.construct (some 0) none ⟨[0], 1⟩).1).subsystem1_ = some a ∧
        a ∉ (Heap.mk [0] 1).live ∧
        a ∈ (Facade.construct (some 0) none ⟨[0], 1⟩).2.live) ∧
    (∀ a, (none : Option Addr) = some a →
      ((Facade.construct (some 0) none ⟨[0], 1⟩).1).subsystem2_ = some a) ∧
    ((none : Option Addr) = none →
      ∃ a, ((Facade.construct (some 0) none ⟨[0], 1⟩).1).subsystem2_ = some a ∧
        a ∉ (Heap.mk [0] 1).live ∧
        a ∈ (Facade.construct (some 0) none ⟨[0], 1⟩).2.live) :=
  C4_constructor_stores (some 0) none ⟨[0], 1⟩ (by decide)

/-- Claim C5: however the facade is constructed, both subsystem pointer
fields are non-null immediately after construction, and Operation never
nullifies or replaces either field: a successful call returns a facade
whose two fields are unchanged. -/
theorem C5_nonnull_invariant (o1 o2 : Option Addr) (h : Heap) :
    (((Facade.construct o1 o2 h).1).subsystem1_).isSome ∧
    (((Facade.construct o1 o2 h).1).subsystem2_).isSome ∧
    (∀ h1 r f2 h2,
      ((Facade.construct o1 o2 h).1).operation h1 = some (r, f2, h2) →
        f2.subsystem1_ = ((Facade.construct o1 o2 h).1).subsystem1_ ∧
        f2.subsystem2_ = ((Facade.construct o1 o2 h).1).subsystem2_) := by
  refine ⟨?_, ?_, ?_⟩
  · rcases o1 with _ | a <;> rcases o2 with _ | b <;> rfl
  · rcases o1 with _ | a <;> rcases o2 with _ | b <;> rfl
  · intro h1 r f2 h2 hop
    obtain ⟨-, hf, -⟩ := operation_frame _ _ _ _ _ hop
    rw [hf]
    exact ⟨rfl, rfl⟩

/-- Witness for C5 at a concrete construction and Operation call. -/
theorem C5_nonnull_invariant_witness :
    (((Facade.construct (some 0) none ⟨[0], 1⟩).1).subsystem1_).isSome ∧
    (((Facade.construct (some 0) none ⟨[0], 1⟩).1).subsystem2_).isSome ∧
    (∀ h1 r f2 h2,
      ((Facade.construct (some 0) none ⟨[0], 1⟩).1).operation h1 =
          some (r, f2, h2) →
        f2.subsystem1_ =
          ((Facade.construct (some 0) none ⟨[0], 1⟩).1).subsystem1_ ∧
        f2.subsystem2_ =
          ((Facade.construct (some 0) none ⟨[0], 1⟩).1).subsystem2_) :=
  C5_nonnull_invariant (some 0) none ⟨[0], 1⟩

/-- Claim C6: the four subsystem operations take no argument besides the
instance, always return their fixed strings, and are independent of the
instance (the classes have no internal state). -/
theorem C6_subsystem_fixed_strings (s t : Subsystem1) (u v : Subsystem2) :
    s.Operation1 = "Subsystem1: Ready!\n" ∧
    s.OperationN = "Subsystem1: Go!\n" ∧
    u.Operation1 = "Subsystem2: Get ready!\n" ∧
    u.OperationZ = "Subsystem2: Fire!\n" ∧
    s.Operation1 = t.Operation1 ∧ s.OperationN = t.OperationN ∧
    u.Operation1 = v.Operation1 ∧ u.OperationZ = v.OperationZ :=
  ⟨rfl, rfl, rfl, rfl, rfl, rfl, rfl, rfl⟩

/-- Claim C7: destroying a facade constructed with no explicit instances
releases exactly the two instances it created: the two fields hold two
distinct fresh addresses, the teardown succeeds (each delete hits a live
address, so each owned instance is released exactly once), and the
resulting live list is exactly the one before construction (no leak). -/
theorem C7_owned_teardown (h : Heap) (hw : h.wf) :
    ∃ a1 a2,
      ((Facade.construct none none h).1).subsystem1_ = some a1 ∧
      ((Facade.construct none none h).1).subsystem2_ = some a2 ∧
      a1 ≠ a2 ∧ a1 ∉ h.live ∧ a2 ∉ h.live ∧
      ((Facade.construct none none h).1).destruct
          (Facade.construct none none h).2 =
        some ⟨h.live, h.next + 2⟩ := by
  obtain ⟨hlt, -⟩ := hw
  have hn : h.next ∉ h.live := fun hm => absurd (hlt _ hm) (lt_irrefl _)
  have hn1 : h.next + 1 ∉ h.live :=
    fun hm => absurd (Nat.lt_of_succ_lt (hlt _ hm)) (lt_irrefl _)
  have hne : h.next + 1 ≠ h.next := Nat.succ_ne_self h.next
  refine ⟨h.next, h.next + 1, rfl, rfl, hne.symm, hn, hn1, ?_⟩
  have hc : Facade.construct none none h =
      (⟨some h.next, some (h.next + 1)⟩,
        ⟨(h.next + 1) :: h.next :: h.live, h.next + 2⟩) := rfl
  rw [hc]
  simp [Facade.destruct, deleteP, Heap.free, List.erase_cons, hne]

/-- Witness for C7 at a concrete well-formed heap. -/
theorem C7_owned_teardown_witness :
    ∃ a1 a2,
      ((Facade.construct none none ⟨[4], 5⟩).1).subsystem1_ = some a1 ∧
      ((Facade.construct none none ⟨[4], 5⟩).1).subsystem2_ = some a2 ∧
      a1 ≠ a2 ∧ a1 ∉ (Heap.mk [4] 5).live ∧ a2 ∉ (Heap.mk [4] 5).live ∧
      ((Facade.construct none none ⟨[4], 5⟩).1).destruct
          (Facade.construct none none ⟨[4], 5⟩).2 =
        some ⟨(Heap.mk [4] 5).live, (Heap.mk [4] 5).next + 2⟩ :=
  C7_owned_teardown ⟨[4], 5⟩ (by decide)

/-- Claim C8: Operation is deterministic and stateless: two successive
successful calls on the same facade (the second starting from the state
the first returned) yield equal result strings. -/
theorem C8_operation_deterministic (f : Facade) (h : Heap) (r1 r2 : String)
    (f1 f2 : Facade) (h1 h2 : Heap)
    (c1 : f.operation h = some (r1, f1, h1))
    (c2 : f1.operation h1 = some (r2, f2, h2)) :
    r1 = r2 := by
  obtain ⟨hr1, -, -⟩ := operation_frame _ _ _ _ _ c1
  obtain ⟨hr2, -, -⟩ := operation_frame _ _ _ _ _ c2
  rw [hr1, hr2]

/-- Witness for C8: two consecutive calls on a concrete facade. -/
theorem C8_operation_deterministic_witness : expectedOutput = expectedOutput :=
  C8_operation_deterministic ⟨some 0, some 1⟩ ⟨[0, 1], 2⟩ expectedOutput
    expectedOutput ⟨some 0, some 1⟩ ⟨some 0, some 1⟩ ⟨[0, 1], 2⟩ ⟨[0, 1], 2⟩
    (by rfl) (by rfl)

/-- Claim C9: the driver main runs the facade built from client-created
instances and then the facade built with no explicit instances, writes
both composite-operation outputs (separated by the printed newline) to
standard output, and exits with status 0. -/
theorem C9_main_output :
    mainProg = some (expectedOutput ++ "\n" ++ expectedOutput, 0) := by
  rfl

/-- Claim C10: Operation leaves the facade state unchanged: a successful
call returns the facade with both subsystem pointer fields identical to
those before the call, and the heap of subsystem instances exactly as it
was (nothing created, replaced or released). -/
theorem C10_operation_frame (f : Facade) (h : Heap) (r : String)
    (f' : Facade) (h' : Heap) (hc : f.operation h = some (r, f', h')) :
    f' = f ∧ h' = h :=
  ⟨(operation_frame f h r f' h' hc).2.1, (operation_frame f h r f' h' hc).2.2⟩

/-- Witness for C10 at a concrete facade and heap. -/
theorem C10_operation_frame_witness :
    (Facade.mk (some 0) (some 1) = Facade.mk (some 0) (some 1)) ∧
    (Heap.mk [0, 1] 2 = Heap.mk [0, 1] 2) :=
  C10_operation_frame ⟨some 0, some 1⟩ ⟨[0, 1], 2⟩ expectedOutput
    ⟨some 0, some 1⟩ ⟨[0, 1], 2⟩ (by rfl)
